import Mathlib

/-!
Verification of the pipeline construction and validation engine of the
`pisa` repository (`pisa/template_maker.py`, class `TemplateMaker`).

The embedding models the Python source shallowly:
* Python `str.lower` / `str.title` on ASCII text become `pyLower` / `pyTitle`;
* the ordered configuration mapping becomes an association list;
* the importable module namespace (`importlib.import_module` followed by
  `getattr`) becomes a `Registry` of modules with class attributes;
* each `assert` site and each fallible lookup of `init_stages` becomes a
  named constructor of `BuildError`, and the build returns
  `Except BuildError (List Stage)`.
-/

set_option maxHeartbeats 1000000

/-- Decidable equality of `Except` results, so that concrete build outcomes
can be settled by `decide`. -/
instance {ε α : Type} [DecidableEq ε] [DecidableEq α] : DecidableEq (Except ε α) := fun a b =>
  match a, b with
  | .error e, .error f =>
    if h : e = f then .isTrue (by rw [h]) else .isFalse (by intro hh; cases hh; exact h rfl)
  | .ok x, .ok y =>
    if h : x = y then .isTrue (by rw [h]) else .isFalse (by intro hh; cases hh; exact h rfl)
  | .error _, .ok _ => .isFalse (by intro hh; cases hh)
  | .ok _, .error _ => .isFalse (by intro hh; cases hh)

namespace Pisa

/-- ASCII semantics of Python `str.lower` on one character: an upper-case
basic latin letter is shifted down into lower case, all else is unchanged. -/
def lowerChar (c : Char) : Char :=
  if 65 ≤ c.toNat ∧ c.toNat ≤ 90 then Char.ofNat (c.toNat + 32) else c

/-- ASCII semantics of Python upper-casing of one character. -/
def upperChar (c : Char) : Char :=
  if 97 ≤ c.toNat ∧ c.toNat ≤ 122 then Char.ofNat (c.toNat - 32) else c

/-- ASCII alphabetic test (Python `str.isalpha` per character). -/
def alphaChar (c : Char) : Bool :=
  decide ((65 ≤ c.toNat ∧ c.toNat ≤ 90) ∨ (97 ≤ c.toNat ∧ c.toNat ≤ 122))

/-- Python `str.lower` (ASCII). -/
def pyLower (s : String) : String :=
  ⟨s.data.map lowerChar⟩

/-- Python `str.title` worker (ASCII): a letter is upper-cased when the
previous character was not alphabetic, lower-cased otherwise. -/
def titleAux : Bool → List Char → List Char
  | _, [] => []
  | prevAlpha, c :: cs =>
    (if prevAlpha then lowerChar c else upperChar c) :: titleAux (alphaChar c) cs

/-- Python `str.title` (ASCII). -/
def pyTitle (s : String) : String :=
  ⟨titleAux false s.data⟩

/-- Opaque comparable shape descriptor (a binning); only equality matters. -/
abbrev Shape := Nat

/-- Opaque cause of an exception raised inside a stage constructor. -/
abbrev Cause := Nat

/-- A Python value stored in a configuration record. -/
inductive Val where
  | str (s : String)
  | num (n : Int)
deriving DecidableEq

/-- Python `%s` formatting of a configuration value. -/
def Val.pyStr : Val → String
  | .str s => s
  | .num n => toString n

/-- One configuration record: a keyword/value mapping (a Python dict). -/
abbrev Record := List (String × Val)

/-- The ordered configuration: stage-category name to record, iteration
order equal to declaration order (`self.config`). -/
abbrev Config := List (String × Record)

/-- Modelled from the spec: the module `pisa.stage` (base classes
`NoInputStage` and `InputStage`) is imported by `template_maker.py` but is
not part of the source tree.  An instantiated stage object is modelled by
its two `isinstance` capabilities against those base classes and by its two
optional binning attributes (`hasattr` plus value). -/
structure Stage where
  isNoInput : Bool
  isInput : Bool
  input_binning : Option Shape
  output_binning : Option Shape
deriving DecidableEq

/-- Modelled from the spec: a source-stage is an instance of the no-input
variant and not of the input-accepting variant; the spec treats the two
capability variants as a closed, disjoint alternative. -/
def Stage.isSourceStage (s : Stage) : Prop :=
  s.isNoInput = true ∧ s.isInput = false

/-- A stage class: its constructor receives the keyword record and either
returns a stage object or raises (`Except.error` with the raised cause). -/
abbrev StageCtor := Record → Except Cause Stage

/-- A Python module as far as `init_stages` observes it: its class
attributes, looked up by `getattr`. -/
structure PyModule where
  classes : List (String × StageCtor)

/-- The importable module namespace: full module path to module, as consulted
by `importlib.import_module`. -/
structure Registry where
  modules : List (String × PyModule)

/-- The failure taxonomy of the build.  Each constructor corresponds to one
distinct failure site of `TemplateMaker.init_stages`:
* `keyError`: `self.config[stage_name.lower()]` or `[...]['service']` misses;
* `unresolvedStage`: `import_module` (module for the category/service pair
  missing) or `getattr` (class for the title-cased category missing) fails;
  the category is reported in the lower-cased form in which it appears in
  the attempted module path;
* `stageConstructionFailed`: `cls(**record)` raises, with the raised cause;
* `invalidPipelineHead`: the `assert isinstance(stage, NoInputStage)` at
  position 0 fails;
* `invalidStagePosition`: the `assert isinstance(stage, InputStage)` at a
  position `> 0` fails;
* `missingOutputShape`: `assert hasattr(self.stages[-1], 'output_binning')`
  fails;
* `shapeMismatch`: the binning equality assert fails; carries the
  predecessor's declared output shape and the current stage's declared input
  shape (both are printed by the source right before the assert);
* `indexError`: `self.stages[-1]` on an empty list (unreachable from
  `initStages`, kept for totality of `checkStage`). -/
inductive BuildError where
  | keyError (key : String)
  | unresolvedStage (category service : String)
  | stageConstructionFailed (cause : Cause)
  | invalidPipelineHead
  | invalidStagePosition
  | missingOutputShape
  | shapeMismatch (prevOut curIn : Shape)
  | indexError
deriving DecidableEq

/-- The two-step dynamic resolution of `init_stages`:
`module = importlib.import_module('pisa.%s.%s' % (stage_name.lower(), service))`
followed by `cls = getattr(module, stage_name.title())`.  `none` when either
step fails (ImportError or AttributeError). -/
def resolveCls (reg : Registry) (stage_name service : String) : Option StageCtor :=
  match reg.modules.lookup ("pisa." ++ pyLower stage_name ++ "." ++ service) with
  | none => none
  | some m => m.classes.lookup (pyTitle stage_name)

/-- Resolution and instantiation of one stage from its record: read the
`service` field, resolve the class, call `cls(**record)` with the complete
record.  This is the body of one loop iteration of `init_stages` up to and
including `stage = cls(**self.config[stage_name.lower()])`, given the record
the config lookup produced. -/
def instantiateSpec (reg : Registry) (stage_name : String) (record : Record) :
    Except BuildError Stage :=
  match record.lookup "service" with
  | none => .error (.keyError "service")
  | some sv =>
    match resolveCls reg stage_name sv.pyStr with
    | none => .error (.unresolvedStage (pyLower stage_name) sv.pyStr)
    | some cls =>
      match cls record with
      | .error e => .error (.stageConstructionFailed e)
      | .ok stage => .ok stage

/-- One loop iteration of `init_stages` up to the instantiation, starting
from the iterated key: the record is fetched by
`self.config[stage_name.lower()]` (KeyError when the lowered key is absent),
then the stage is resolved and instantiated from it. -/
def instantiate (reg : Registry) (config : Config) (stage_name : String) :
    Except BuildError Stage :=
  match config.lookup (pyLower stage_name) with
  | none => .error (.keyError (pyLower stage_name))
  | some record => instantiateSpec reg stage_name record

/-- The position and shape asserts of one loop iteration of `init_stages`:
at position 0 the stage must be a `NoInputStage` instance; at a later
position it must be an `InputStage` instance, and when it has an
`input_binning` attribute the previously appended stage (`self.stages[-1]`)
must have an `output_binning` attribute equal to it. -/
def checkStage (i : Nat) (builtSoFar : List Stage) (stage : Stage) :
    Except BuildError Unit :=
  if i = 0 then
    if stage.isNoInput then .ok () else .error .invalidPipelineHead
  else
    if stage.isInput then
      match stage.input_binning with
      | none => .ok ()
      | some ib =>
        match builtSoFar.getLast? with
        | none => .error .indexError
        | some prev =>
          match prev.output_binning with
          | none => .error .missingOutputShape
          | some ob => if ib = ob then .ok () else .error (.shapeMismatch ob ib)
    else .error .invalidStagePosition

/-- One complete loop iteration of `init_stages` for the iterated key
`stage_name` at index `i`, `builtSoFar` being the pipeline built so far:
instantiate, run the asserts, and hand back the stage to be appended. -/
def buildStage (reg : Registry) (config : Config) (i : Nat)
    (builtSoFar : List Stage) (stage_name : String) : Except BuildError Stage :=
  match instantiate reg config stage_name with
  | .error e => .error e
  | .ok stage =>
    match checkStage i builtSoFar stage with
    | .error e => .error e
    | .ok _ => .ok stage

/-- The loop of `init_stages` over the remaining configuration entries,
carrying the enumeration index and the stages appended so far. -/
def initStagesAux (reg : Registry) (config : Config) :
    Nat → List Stage → List (String × Record) → Except BuildError (List Stage)
  | _, acc, [] => .ok acc
  | i, acc, (stage_name, _) :: rest =>
    match buildStage reg config i acc stage_name with
    | .error e => .error e
    | .ok stage => initStagesAux reg config (i + 1) (acc ++ [stage]) rest

/-- `TemplateMaker.init_stages`: iterate `enumerate(self.config.keys())`,
building and validating each stage in declaration order; the constructor
`TemplateMaker.__init__` just runs this, so a raised error means no
`TemplateMaker` object (no pipeline) reaches the caller. -/
def initStages (reg : Registry) (config : Config) : Except BuildError (List Stage) :=
  initStagesAux reg config 0 [] config

/-- Dict well-formedness of a configuration as Python guarantees it for the
intended use: keys are distinct, and they are in the lower-case form under
which `init_stages` re-fetches each record. -/
def Config.WF (config : Config) : Prop :=
  (∀ p ∈ config, pyLower p.1 = p.1) ∧ (config.map Prod.fst).Nodup

/-! Character-level facts about the ASCII case maps. -/

theorem toNat_ofNat_valid {n : Nat} (h : n.isValidChar) : (Char.ofNat n).toNat = n := by
  rw [Char.ofNat, dif_pos h]
  rfl

theorem lowerChar_toNat_of_upper {c : Char} (h : 65 ≤ c.toNat ∧ c.toNat ≤ 90) :
    (lowerChar c).toNat = c.toNat + 32 := by
  unfold lowerChar
  rw [if_pos h]
  exact toNat_ofNat_valid (Or.inl (by omega))

theorem lowerChar_eq_of_not_upper {c : Char} (h : ¬(65 ≤ c.toNat ∧ c.toNat ≤ 90)) :
    lowerChar c = c := by
  unfold lowerChar
  rw [if_neg h]

theorem lowerChar_lowerChar (c : Char) : lowerChar (lowerChar c) = lowerChar c := by
  by_cases h : 65 ≤ c.toNat ∧ c.toNat ≤ 90
  · have h1 := lowerChar_toNat_of_upper h
    exact lowerChar_eq_of_not_upper (by omega)
  · simp only [lowerChar_eq_of_not_upper h]

theorem upperChar_lowerChar (c : Char) : upperChar (lowerChar c) = upperChar c := by
  by_cases h : 65 ≤ c.toNat ∧ c.toNat ≤ 90
  · have h1 := lowerChar_toNat_of_upper h
    unfold upperChar
    rw [if_pos (by omega), if_neg (by omega), h1]
    have h2 : c.toNat + 32 - 32 = c.toNat := by omega
    rw [h2, Char.ofNat_toNat]
  · simp only [lowerChar_eq_of_not_upper h]

theorem alphaChar_lowerChar (c : Char) : alphaChar (lowerChar c) = alphaChar c := by
  by_cases h : 65 ≤ c.toNat ∧ c.toNat ≤ 90
  · have h1 := lowerChar_toNat_of_upper h
    unfold alphaChar
    rw [h1, decide_eq_decide]
    omega
  · simp only [lowerChar_eq_of_not_upper h]

theorem titleAux_map_lowerChar (l : List Char) :
    ∀ b, titleAux b (l.map lowerChar) = titleAux b l := by
  induction l with
  | nil => intro b; rfl
  | cons c cs ih =>
    intro b
    simp only [List.map_cons, titleAux]
    rw [alphaChar_lowerChar, upperChar_lowerChar, lowerChar_lowerChar, ih]

theorem map_lowerChar_idem (l : List Char) :
    (l.map lowerChar).map lowerChar = l.map lowerChar := by
  induction l with
  | nil => rfl
  | cons c cs ih => simp only [List.map_cons, lowerChar_lowerChar, ih]

theorem pyLower_pyLower (s : String) : pyLower (pyLower s) = pyLower s := by
  show (⟨(s.data.map lowerChar).map lowerChar⟩ : String) = ⟨s.data.map lowerChar⟩
  rw [map_lowerChar_idem]

theorem pyTitle_pyLower (s : String) : pyTitle (pyLower s) = pyTitle s := by
  show (⟨titleAux false (s.data.map lowerChar)⟩ : String) = ⟨titleAux false s.data⟩
  rw [titleAux_map_lowerChar]

/-! Structural lemmas about the build loop. -/

theorem lookup_eq_of_getElem? :
    ∀ (config : Config) (j : Nat) (name : String) (record : Record),
    (config.map Prod.fst).Nodup → config[j]? = some (name, record) →
    config.lookup name = some record := by
  intro config
  induction config with
  | nil => intro j name record _ h; simp at h
  | cons p t ih =>
    intro j name record hnd h
    rw [List.map_cons, List.nodup_cons] at hnd
    cases j with
    | zero =>
      simp only [List.getElem?_cons_zero, Option.some.injEq] at h
      subst h
      rw [List.lookup_cons, beq_self_eq_true]
    | succ j =>
      obtain ⟨k, v⟩ := p
      simp only [List.getElem?_cons_succ] at h
      have hmem : (name, record) ∈ t := List.getElem?_mem h
      have hne : (name == k) = false := by
        rw [beq_eq_false_iff_ne]
        intro he
        apply hnd.1
        rw [← he]
        exact List.mem_map.mpr ⟨(name, record), hmem, rfl⟩
      rw [List.lookup_cons, hne]
      exact ih j name record hnd.2 h

theorem WF_lookup_pyLower {config : Config} (hwf : Config.WF config) {j : Nat}
    {name : String} {record : Record} (h : config[j]? = some (name, record)) :
    config.lookup (pyLower name) = some record := by
  have hmem : (name, record) ∈ config := List.getElem?_mem h
  have hlow : pyLower name = name := hwf.1 (name, record) hmem
  rw [hlow]
  exact lookup_eq_of_getElem? config j name record hwf.2 h

theorem getElem?_append_cons_length (l₁ : List Stage) (a : Stage) (l₂ : List Stage) :
    ((l₁ ++ [a]) ++ l₂)[l₁.length]? = some a := by
  rw [List.getElem?_append_left (by simp)]
  exact List.getElem?_concat_length l₁ a

theorem buildStage_ok {reg : Registry} {config : Config} {i : Nat}
    {acc : List Stage} {name : String} {s : Stage}
    (h : buildStage reg config i acc name = .ok s) :
    instantiate reg config name = .ok s ∧ checkStage i acc s = .ok () := by
  unfold buildStage at h
  split at h
  · simp at h
  · rename_i stage hi
    split at h
    · simp at h
    · rename_i u hc
      simp only [Except.ok.injEq] at h
      subst h
      cases u
      exact ⟨hi, hc⟩

theorem initStagesAux_ok (reg : Registry) (config : Config) :
    ∀ (rest : List (String × Record)) (i : Nat) (acc out : List Stage),
    initStagesAux reg config i acc rest = .ok out →
    out.length = acc.length + rest.length ∧
    (∃ t, out = acc ++ t) ∧
    ∀ j name record, rest[j]? = some (name, record) →
      ∃ s, out[acc.length + j]? = some s ∧
        buildStage reg config (i + j) (out.take (acc.length + j)) name = .ok s := by
  intro rest
  induction rest with
  | nil =>
    intro i acc out h
    simp only [initStagesAux] at h
    cases h
    exact ⟨by simp, ⟨[], by simp⟩, fun j name record hj => by simp at hj⟩
  | cons p rest ih =>
    intro i acc out h
    obtain ⟨name, record⟩ := p
    simp only [initStagesAux] at h
    cases hb : buildStage reg config i acc name with
    | error e => rw [hb] at h; simp at h
    | ok s =>
      rw [hb] at h
      obtain ⟨hlen, ⟨t, hpre⟩, hidx⟩ := ih (i + 1) (acc ++ [s]) out h
      subst hpre
      refine ⟨by simp at hlen ⊢; omega, ⟨s :: t, by simp⟩, ?_⟩
      intro j name' record' hj
      cases j with
      | zero =>
        simp only [List.getElem?_cons_zero, Option.some.injEq] at hj
        obtain ⟨h1, h2⟩ := Prod.mk.inj hj
        subst h1
        refine ⟨s, ?_, ?_⟩
        · rw [Nat.add_zero]
          exact getElem?_append_cons_length acc s t
        · have htake : ((acc ++ [s]) ++ t).take acc.length = acc := by
            rw [List.append_assoc]
            exact List.take_left acc ([s] ++ t)
          rw [Nat.add_zero, Nat.add_zero, htake]
          exact hb
      | succ j' =>
        simp only [List.getElem?_cons_succ] at hj
        obtain ⟨s', h1, h2⟩ := hidx j' name' record' hj
        have e1 : i + (j' + 1) = (i + 1) + j' := by omega
        have e2 : acc.length + (j' + 1) = (acc ++ [s]).length + j' := by
          simp
          omega
        rw [e1, e2]
        exact ⟨s', h1, h2⟩

theorem initStages_ok (reg : Registry) (config : Config) (stages : List Stage)
    (h : initStages reg config = .ok stages) :
    stages.length = config.length ∧
    ∀ j name record, config[j]? = some (name, record) →
      ∃ s, stages[j]? = some s ∧
        buildStage reg config j (stages.take j) name = .ok s := by
  obtain ⟨hlen, _, hidx⟩ := initStagesAux_ok reg config config 0 [] stages h
  refine ⟨by simpa using hlen, ?_⟩
  intro j name record hj
  obtain ⟨s, h1, h2⟩ := hidx j name record hj
  exact ⟨s, by simpa using h1, by simpa using h2⟩

theorem checkStage_zero_ok {acc : List Stage} {s : Stage}
    (h : checkStage 0 acc s = .ok ()) : s.isNoInput = true := by
  by_cases hb : s.isNoInput = true
  · exact hb
  · rw [Bool.not_eq_true] at hb
    simp [checkStage, hb] at h

theorem checkStage_pos_ok {i : Nat} {acc : List Stage} {s : Stage} (hi : i ≠ 0)
    (h : checkStage i acc s = .ok ()) : s.isInput = true := by
  by_cases hb : s.isInput = true
  · exact hb
  · rw [Bool.not_eq_true] at hb
    simp [checkStage, hi, hb] at h

theorem checkStage_head_error {acc : List Stage} {s : Stage}
    (hs : s.isNoInput = false) :
    checkStage 0 acc s = .error .invalidPipelineHead := by
  simp [checkStage, hs]

theorem checkStage_pos_error {i : Nat} {acc : List Stage} {s : Stage} (hi : i ≠ 0)
    (hs : s.isInput = false) :
    checkStage i acc s = .error .invalidStagePosition := by
  simp [checkStage, hi, hs]

theorem checkStage_head_pass {acc : List Stage} {s : Stage}
    (hs : s.isNoInput = true) : checkStage 0 acc s = .ok () := by
  simp [checkStage, hs]

theorem buildStage_error_inst {reg : Registry} {config : Config} {i : Nat}
    {acc : List Stage} {name : String} {e : BuildError}
    (h : instantiate reg config name = .error e) :
    buildStage reg config i acc name = .error e := by
  simp [buildStage, h]

theorem buildStage_error_chk {reg : Registry} {config : Config} {i : Nat}
    {acc : List Stage} {name : String} {s : Stage} {e : BuildError}
    (hi : instantiate reg config name = .ok s)
    (hc : checkStage i acc s = .error e) :
    buildStage reg config i acc name = .error e := by
  simp [buildStage, hi, hc]

theorem initStagesAux_error {reg : Registry} {config : Config} {i : Nat}
    {acc : List Stage} {name : String} {record : Record}
    {rest : List (String × Record)} {e : BuildError}
    (h : buildStage reg config i acc name = .error e) :
    initStagesAux reg config i acc ((name, record) :: rest) = .error e := by
  simp [initStagesAux, h]

theorem instantiate_unresolved {reg : Registry} {config : Config} {name : String}
    {crec : Record} {sv : Val}
    (hlk : config.lookup (pyLower name) = some crec)
    (hsv : crec.lookup "service" = some sv)
    (hres : resolveCls reg name sv.pyStr = none) :
    instantiate reg config name = .error (.unresolvedStage (pyLower name) sv.pyStr) := by
  simp [instantiate, instantiateSpec, hlk, hsv, hres]

theorem instantiate_ctor_error {reg : Registry} {config : Config} {name : String}
    {crec : Record} {sv : Val} {cls : StageCtor} {e : Cause}
    (hlk : config.lookup (pyLower name) = some crec)
    (hsv : crec.lookup "service" = some sv)
    (hres : resolveCls reg name sv.pyStr = some cls)
    (hc : cls crec = .error e) :
    instantiate reg config name = .error (.stageConstructionFailed e) := by
  simp [instantiate, instantiateSpec, hlk, hsv, hres, hc]

/-! Concrete fixtures used by the witness theorems: a two-module registry
with a source-stage class `Flux`, a transform-stage class `Osc` whose input
binning matches `Flux`'s output binning, and a class `Aeff` whose
constructor raises. -/

def stageA : Stage := ⟨true, false, none, some 1⟩

def stageA5 : Stage := ⟨true, false, none, some 5⟩

def stageB : Stage := ⟨false, true, some 1, some 2⟩

def ctorA : StageCtor := fun _ => .ok stageA

def ctorB : StageCtor := fun _ => .ok stageB

def ctorBad : StageCtor := fun _ => .error 7

def wReg : Registry :=
  ⟨[("pisa.flux.honda", ⟨[("Flux", ctorA)]⟩),
    ("pisa.osc.prob3", ⟨[("Osc", ctorB)]⟩),
    ("pisa.aeff.bad", ⟨[("Aeff", ctorBad)]⟩)]⟩

def recA : Record := [("service", .str "honda")]

def recB : Record := [("service", .str "prob3"), ("param", .num 3)]

def wCfg : Config := [("flux", recA), ("osc", recB)]

def stageC : Stage := ⟨false, true, none, none⟩

def recN : Record := [("service", .str "nonexistent")]

def recBad : Record := [("service", .str "bad")]

/-- Claim C1: for every well-formed configuration of length N that builds
successfully, `init_stages` produces exactly N stages, in the
configuration's declared iteration order: the stage at index `i` is the one
resolved and instantiated from the i-th entry of the configuration. -/
theorem init_stages_builds_in_config_order (reg : Registry) (config : Config)
    (stages : List Stage) (hwf : Config.WF config)
    (h : initStages reg config = .ok stages) :
    stages.length = config.length ∧
    ∀ (i : Nat) (name : String) (record : Record), config[i]? = some (name, record) →
      ∃ s, stages[i]? = some s ∧ instantiateSpec reg name record = .ok s := by
  obtain ⟨hlen, hidx⟩ := initStages_ok reg config stages h
  refine ⟨hlen, ?_⟩
  intro i name record hi
  obtain ⟨s, h1, h2⟩ := hidx i name record hi
  refine ⟨s, h1, ?_⟩
  have hinst := (buildStage_ok h2).1
  have hlkp := WF_lookup_pyLower hwf hi
  simpa [instantiate, hlkp] using hinst

/-- Witness for C1: the two-stage configuration `flux` then `osc` builds the
pipeline `[stageA, stageB]` in declared order. -/
theorem init_stages_builds_in_config_order_witness :
    ([stageA, stageB] : List Stage).length = wCfg.length ∧
    ∀ (i : Nat) (name : String) (record : Record), wCfg[i]? = some (name, record) →
      ∃ s, ([stageA, stageB] : List Stage)[i]? = some s ∧
        instantiateSpec wReg name record = .ok s :=
  init_stages_builds_in_config_order wReg wCfg [stageA, stageB]
    ⟨by decide, by decide⟩ (by decide)

/-- Claim C2: if the first configuration entry instantiates a stage that is
not an instance of the no-input variant, the build fails with
`invalidPipelineHead`; if it instantiates a no-input instance, the
position-0 check passes. -/
theorem head_requires_source_stage (reg : Registry) (config : Config)
    (name : String) (record : Record) (rest : List (String × Record))
    (stage : Stage) (hc : config = (name, record) :: rest)
    (hi : instantiate reg config name = .ok stage) :
    (stage.isNoInput = false →
      initStages reg config = .error .invalidPipelineHead) ∧
    (stage.isNoInput = true → checkStage 0 [] stage = .ok ()) := by
  subst hc
  refine ⟨?_, fun hs => checkStage_head_pass hs⟩
  intro hs
  exact initStagesAux_error (buildStage_error_chk hi (checkStage_head_error hs))

/-- Witness for C2: a configuration whose sole entry instantiates the
transform-stage `stageB` fails with `invalidPipelineHead`. -/
theorem head_requires_source_stage_witness :
    initStages wReg [("osc", recB)] = .error .invalidPipelineHead :=
  (head_requires_source_stage wReg [("osc", recB)] "osc" recB [] stageB rfl
    (by decide)).1 rfl

/-- Claim C3: first conjunct — whenever the build reaches a position
`i > 0` whose entry instantiates a stage that is not an instance of the
input-accepting variant, it fails with `invalidStagePosition`; second
conjunct — in every successfully built pipeline, every stage after the
first is an input-accepting instance and hence never a source-stage. -/
theorem tail_requires_transform_stage (reg : Registry) (config : Config) :
    (∀ i acc name record rest stage, 0 < i →
      instantiate reg config name = .ok stage → stage.isInput = false →
      initStagesAux reg config i acc ((name, record) :: rest) =
        .error .invalidStagePosition) ∧
    (∀ stages, initStages reg config = .ok stages →
      ∀ i, ∀ hi : i < stages.length, 0 < i →
        stages[i].isInput = true ∧ ¬ stages[i].isSourceStage) := by
  constructor
  · intro i acc name record rest stage h0 hinst hs
    exact initStagesAux_error
      (buildStage_error_chk hinst (checkStage_pos_error (by omega) hs))
  · intro stages hok i hi h0
    obtain ⟨hlen, hidx⟩ := initStages_ok reg config stages hok
    have hci : i < config.length := hlen ▸ hi
    have hcg : config[i]? = some config[i] := List.getElem?_eq_getElem hci
    obtain ⟨s, h1, h2⟩ := hidx i (config[i]).1 (config[i]).2 hcg
    have hs_eq : stages[i] = s := by
      have hg : stages[i]? = some stages[i] := List.getElem?_eq_getElem hi
      rw [hg] at h1
      exact Option.some.inj h1
    have htr : s.isInput = true := checkStage_pos_ok (by omega) (buildStage_ok h2).2
    rw [hs_eq]
    refine ⟨htr, fun hsrc => ?_⟩
    have hfalse : s.isInput = false := hsrc.2
    rw [htr] at hfalse
    exact absurd hfalse (by decide)

/-- Witness for C3: placing the source-stage `stageA` at position 1 makes
the loop fail with `invalidStagePosition`. -/
theorem tail_requires_transform_stage_witness :
    initStagesAux wReg wCfg 1 [stageA] [("flux", recA)] =
      .error .invalidStagePosition :=
  (tail_requires_transform_stage wReg wCfg).1 1 [stageA] "flux" recA [] stageA
    (by decide) (by decide) rfl

/-- Claim C4: at a reached position `i > 0` where the instantiated stage
declares an input shape: a predecessor without a declared output shape makes
the build fail with `missingOutputShape`; a predecessor with a different
declared output shape makes it fail with `shapeMismatch` carrying both
declared shapes; an equal declared output shape passes the check. -/
theorem adjacent_shape_check (reg : Registry) (config : Config) (i : Nat)
    (acc : List Stage) (prev stage : Stage) (name : String) (record : Record)
    (rest : List (String × Record)) (ib : Shape) (h0 : 0 < i)
    (hinst : instantiate reg config name = .ok stage)
    (htr : stage.isInput = true) (hib : stage.input_binning = some ib)
    (hprev : acc.getLast? = some prev) :
    (prev.output_binning = none →
      initStagesAux reg config i acc ((name, record) :: rest) =
        .error .missingOutputShape) ∧
    (∀ ob, prev.output_binning = some ob → ib ≠ ob →
      initStagesAux reg config i acc ((name, record) :: rest) =
        .error (.shapeMismatch ob ib)) ∧
    (prev.output_binning = some ib → checkStage i acc stage = .ok ()) := by
  have hi0 : i ≠ 0 := by omega
  refine ⟨?_, ?_, ?_⟩
  · intro hnone
    refine initStagesAux_error (buildStage_error_chk hinst ?_)
    simp [checkStage, hi0, htr, hib, hprev, hnone]
  · intro ob hob hne
    refine initStagesAux_error (buildStage_error_chk hinst ?_)
    simp [checkStage, hi0, htr, hib, hprev, hob, hne]
  · intro hob
    simp [checkStage, hi0, htr, hib, hprev, hob]

/-- Witness for C4: the transform-stage `stageB` (input shape 1) after a
predecessor declaring output shape 5 fails with `shapeMismatch 5 1`. -/
theorem adjacent_shape_check_witness :
    initStagesAux wReg wCfg 1 [stageA5] [("osc", recB)] =
      .error (.shapeMismatch 5 1) :=
  (adjacent_shape_check wReg wCfg 1 [stageA5] stageA5 stageB "osc" recB [] 1
    (by decide) (by decide) rfl rfl rfl).2.1 5 rfl (by decide)

/-- Claim C5: a stage at a position `i > 0` that declares no input shape is
not checked against its predecessor: the position/shape check succeeds
whatever the previously built stages declare. -/
theorem no_input_shape_skips_check (i : Nat) (builtSoFar : List Stage)
    (stage : Stage) (h0 : 0 < i) (htr : stage.isInput = true)
    (hib : stage.input_binning = none) :
    checkStage i builtSoFar stage = .ok () := by
  have hi0 : i ≠ 0 := by omega
  simp [checkStage, hi0, htr, hib]

/-- Witness for C5: a transform-stage without declared input shape passes
the check even after a predecessor declaring output shape 5. -/
theorem no_input_shape_skips_check_witness :
    checkStage 1 [stageA5] stageC = .ok () :=
  no_input_shape_skips_check 1 [stageA5] stageC (by decide) rfl rfl

/-- Claim C6: an entry whose (category, service) pair resolves to no
registered implementation — module missing or class missing — makes the
build fail with `unresolvedStage` at that very entry: it is not skipped and
the entries after it are never processed. -/
theorem unregistered_service_unresolved (reg : Registry) (config : Config)
    (i : Nat) (acc : List Stage) (name : String) (record crec : Record)
    (rest : List (String × Record)) (sv : Val)
    (hlk : config.lookup (pyLower name) = some crec)
    (hsv : crec.lookup "service" = some sv)
    (hres : resolveCls reg name sv.pyStr = none) :
    initStagesAux reg config i acc ((name, record) :: rest) =
      .error (.unresolvedStage (pyLower name) sv.pyStr) :=
  initStagesAux_error (buildStage_error_inst (instantiate_unresolved hlk hsv hres))

/-- Witness for C6: the service `nonexistent` for category `flux` is
unregistered and the build fails with `unresolvedStage`. -/
theorem unregistered_service_unresolved_witness :
    initStagesAux wReg [("flux", recN)] 0 [] [("flux", recN)] =
      .error (.unresolvedStage "flux" "nonexistent") :=
  unregistered_service_unresolved wReg [("flux", recN)] 0 [] "flux" recN recN []
    (.str "nonexistent") (by decide) (by decide) rfl

/-- Claim C7: construction is all-or-nothing — a successful build returns
exactly one stage per configuration entry, and the first failing step
aborts the whole loop with that error, so no partially built pipeline is
ever returned. -/
theorem build_is_all_or_nothing (reg : Registry) (config : Config) :
    (∀ stages, initStages reg config = .ok stages →
      stages.length = config.length) ∧
    (∀ i acc name record rest e,
      buildStage reg config i acc name = .error e →
      initStagesAux reg config i acc ((name, record) :: rest) = .error e) := by
  constructor
  · intro stages h
    exact (initStages_ok reg config stages h).1
  · intro i acc name record rest e h
    exact initStagesAux_error h

/-- Witness for C7: a failing head entry aborts the loop at once; the
remaining entry is never processed. -/
theorem build_is_all_or_nothing_witness :
    initStagesAux wReg [("osc", recB), ("flux", recA)] 0 []
      [("osc", recB), ("flux", recA)] = .error .invalidPipelineHead :=
  (build_is_all_or_nothing wReg [("osc", recB), ("flux", recA)]).2 0 [] "osc"
    recB [("flux", recA)] .invalidPipelineHead (by decide)

/-- Counterexample to claim C8 as stated: the same record keyed `"flux"`
versus `"Flux"`: the lower-case key builds the pipeline, but the
capitalised key makes the build fail with a `KeyError` on the lowered key,
because the source fetches `self.config[stage_name.lower()]` while
iterating the original keys — so the build does not behave identically. -/
theorem category_case_counterexample :
    initStages wReg [("flux", recA)] = .ok [stageA] ∧
    initStages wReg [("Flux", recA)] = .error (.keyError "flux") :=
  ⟨by decide, by decide⟩

/-- Claim C8 (amended): the implementation resolution is case-insensitive
in the iterated category name — instantiation behaves identically for a
category name and its lower-cased form, because the record and module
lookups lower-case the name and the class lookup title-cases it — but the
record itself is fetched under the lower-cased key, so a configuration
keyed only in another letter case fails with a `KeyError` instead of
behaving identically (see the counterexample). -/
theorem category_resolution_case_insensitive (reg : Registry) (config : Config)
    (name : String) :
    instantiate reg config name = instantiate reg config (pyLower name) := by
  unfold instantiate instantiateSpec resolveCls
  simp only [pyLower_pyLower, pyTitle_pyLower]

/-- Claim C9: when a stage constructor raises, the build aborts at that
entry with `stageConstructionFailed` carrying the raised cause (in the
source the exception propagates out of `init_stages` unchanged; the
embedding's tag is the injection of that cause into the build error type),
and the entries after it are never processed. -/
theorem ctor_failure_aborts_build (reg : Registry) (config : Config) (i : Nat)
    (acc : List Stage) (name : String) (record crec : Record)
    (rest : List (String × Record)) (sv : Val) (cls : StageCtor) (e : Cause)
    (hlk : config.lookup (pyLower name) = some crec)
    (hsv : crec.lookup "service" = some sv)
    (hres : resolveCls reg name sv.pyStr = some cls)
    (hc : cls crec = .error e) :
    initStagesAux reg config i acc ((name, record) :: rest) =
      .error (.stageConstructionFailed e) :=
  initStagesAux_error (buildStage_error_inst (instantiate_ctor_error hlk hsv hres hc))

/-- Witness for C9: the class `Aeff` raises cause 7 and the build fails
with `stageConstructionFailed 7`. -/
theorem ctor_failure_aborts_build_witness :
    initStagesAux wReg [("aeff", recBad)] 0 [] [("aeff", recBad)] =
      .error (.stageConstructionFailed 7) :=
  ctor_failure_aborts_build wReg [("aeff", recBad)] 0 [] "aeff" recBad recBad []
    (.str "bad") ctorBad 7 (by decide) (by decide) rfl rfl

/-- Claim C10: the resolved class is called with the complete configuration
record of its category as keyword parameters — the record still containing
the `service` field — and the outcome of the instantiation step is exactly
the constructor's outcome on that full record. -/
theorem ctor_receives_full_record (reg : Registry) (config : Config)
    (name : String) (crec : Record) (sv : Val) (cls : StageCtor)
    (hlk : config.lookup (pyLower name) = some crec)
    (hsv : crec.lookup "service" = some sv)
    (hres : resolveCls reg name sv.pyStr = some cls) :
    crec.lookup "service" = some sv ∧
    (∀ stage, cls crec = .ok stage →
      instantiate reg config name = .ok stage) ∧
    (∀ e, cls crec = .error e →
      instantiate reg config name = .error (.stageConstructionFailed e)) := by
  refine ⟨hsv, ?_, ?_⟩
  · intro stage hc
    simp [instantiate, instantiateSpec, hlk, hsv, hres, hc]
  · intro e hc
    simp [instantiate, instantiateSpec, hlk, hsv, hres, hc]

/-- Witness for C10: the class `Flux` receives the complete record `recA`
including its `service` field. -/
theorem ctor_receives_full_record_witness :
    recA.lookup "service" = some (.str "honda") ∧
    (∀ stage, ctorA recA = .ok stage →
      instantiate wReg wCfg "flux" = .ok stage) ∧
    (∀ e, ctorA recA = .error e →
      instantiate wReg wCfg "flux" = .error (.stageConstructionFailed e)) :=
  ctor_receives_full_record wReg wCfg "flux" recA (.str "honda") ctorA
    (by decide) (by decide) rfl

end Pisa
